import Mathlib

/-!
Verification development for the TalentAI candidate-matching backend.

The Python source is shallowly embedded: pure functions become Lean
functions over `ℚ` (Python floats are modelled as exact rationals, and the
claims' tolerances absorb any float rounding), database collections become
lists threaded through the functions, and fallible operations return
`Option` or a `Bool` flag as the source does.  External libraries
(scikit-learn's scaler/regressor, FAISS internals, Celery) are modelled at
their interface boundary, as are the handful of pydantic model classes the
backend imports but whose definitions are not part of the scoring core.
-/

/-! ## ScoringModel (backend/server.py)

`calculate_skill_overlap` and `calculate_experience_match` from
`backend/server.py`, and the `score_breakdown` skill lists built inline in
`search_candidates` (and identically in `tasks/search_tasks.py`).
-/

/-- Model of Python `str.lower()` (character-wise lowercasing). -/
def lowerStr (s : String) : String := String.mk (s.data.map Char.toLower)

/-- `calculate_skill_overlap` from `backend/server.py`:
if `job_skills` is empty return `1.0`; otherwise lower-case both sides into
sets and return `|candidate_set ∩ job_set| / |job_set|` (with the source's
trailing `if job_set else 0.0` guard). -/
def calculate_skill_overlap (candidate_skills job_skills : List String) : ℚ :=
  if job_skills = [] then 1
  else
    let candidate_set := (candidate_skills.map lowerStr).toFinset
    let job_set := (job_skills.map lowerStr).toFinset
    if job_set ≠ ∅ then (candidate_set ∩ job_set).card / job_set.card else 0

/-- `calculate_experience_match` from `backend/server.py`. -/
def calculate_experience_match (candidate_years required_years : ℤ) : ℚ :=
  if required_years ≤ 0 then 1
  else if candidate_years ≥ required_years then 1
  else (candidate_years : ℚ) / (required_years : ℚ)

/-- `score_breakdown["matched_skills"]` from `search_candidates` in
`backend/server.py`: `set(candidate.skills).intersection(set(job.required_skills))`
over the raw (case-sensitive) skill strings. -/
def matched_skills (candidate_skills required_skills : List String) : Finset String :=
  candidate_skills.toFinset ∩ required_skills.toFinset

/-- `score_breakdown["missing_skills"]` from `search_candidates` in
`backend/server.py`: `set(job.required_skills) - set(candidate.skills)`
over the raw (case-sensitive) skill strings. -/
def missing_skills (candidate_skills required_skills : List String) : Finset String :=
  required_skills.toFinset \ candidate_skills.toFinset

/-! ## RankOptimizer (backend/learning_to_rank.py)

`LearningToRankEngine`.  Database collections are lists; timestamps are
whole days (`ℤ`), so the source's `(utcnow - t).days` is plain subtraction.
The pydantic model classes `InteractionType`, `RecruiterInteraction` and
`LearningWeights` are imported by the backend from `models` but their
definitions are not part of the provided scoring core, so they are modelled
from the spec below.
-/

/-- Modelled from the spec: `InteractionType`, the six recruiter interaction
kinds (click/shortlist/application/interview/hire/reject); its definition is
missing from the provided `models.py`. -/
inductive InteractionType where
  | click
  | shortlist
  | application
  | interview
  | hire
  | reject
deriving DecidableEq

/-- Modelled from the spec: `RecruiterInteraction` — who, on whom, for which
job, the interaction kind, the component scores observed at interaction
time, the rank position in that search, the derived scalar reward
(`feedback_value`) and a timestamp; its definition is missing from the
provided `models.py`.  Unset optional fields default to `none` and the
derived reward to 0 before `record_interaction` fills it in. -/
structure RecruiterInteraction where
  recruiter_id : String
  candidate_id : String
  job_id : String
  interaction_type : InteractionType
  semantic_score : Option ℚ := none
  skill_overlap_score : Option ℚ := none
  experience_match_score : Option ℚ := none
  original_score : Option ℚ := none
  search_position : Option ℤ := none
  feedback_value : ℚ := 0
  timestamp : ℤ := 0
deriving DecidableEq

/-- Modelled from the spec: `LearningWeights` — the weight triple, a
confidence score, the interaction count used to derive it, an optional
job-category scope, a performance-metrics map and a last-updated timestamp;
its definition is missing from the provided `models.py`.  Fields not passed
to the constructor keep their (pydantic) defaults. -/
structure LearningWeights where
  semantic_weight : ℚ
  skill_weight : ℚ
  experience_weight : ℚ
  confidence_score : ℚ := 0
  interaction_count : ℕ := 0
  job_category : Option String := none
  performance_metrics : List (String × ℚ) := []
  last_updated : ℤ := 0
deriving DecidableEq

/-- The two Mongo collections `LearningToRankEngine` touches. -/
structure LearnDB where
  recruiter_interactions : List RecruiterInteraction
  learning_weights : List LearningWeights
deriving DecidableEq

/-- `self.default_weights` from `LearningToRankEngine.__init__`: only the
three weights are set, every other field keeps its model default. -/
def default_weights : LearningWeights :=
  { semantic_weight := 0.4, skill_weight := 0.4, experience_weight := 0.2 }

/-- `self.reward_values` from `LearningToRankEngine.__init__`. -/
def reward_values : InteractionType → ℚ
  | .click => 0.1
  | .shortlist => 0.3
  | .application => 0.7
  | .interview => 0.9
  | .hire => 1.0
  | .reject => -0.5

/-- `self.min_interactions_threshold` from `LearningToRankEngine.__init__`. -/
def min_interactions_threshold : ℕ := 50

/-- `LearningToRankEngine.record_interaction`: compute the reward from the
interaction kind, add the position bonus when a search position was
recorded, store the interaction, return `True`. -/
def record_interaction (db : LearnDB) (i : RecruiterInteraction) : Bool × LearnDB :=
  let fv := reward_values i.interaction_type
  let fv := match i.search_position with
    | some p => fv + max 0 ((10 - (p : ℚ)) / 10 * 0.2)
    | none => fv
  let i' := { i with feedback_value := fv }
  (true, { db with recruiter_interactions := db.recruiter_interactions ++ [i'] })

/-- Mongo `find_one(query, sort=[("last_updated", -1)])`: the first record
matching the filter under a descending sort on `last_updated`. -/
def find_one_latest (l : List LearningWeights) (q : LearningWeights → Bool) :
    Option LearningWeights :=
  ((l.filter q).mergeSort (fun a b => decide (b.last_updated ≤ a.last_updated))).head?

/-- The category filter built in `get_optimal_weights`: Python adds the
`job_category` key only when the argument is truthy (not `None`, not `""`). -/
def category_query (job_category : Option String) (w : LearningWeights) : Bool :=
  match job_category with
  | none => true
  | some c => if c = "" then true else decide (w.job_category = some c)

/-- `LearningToRankEngine._is_weights_fresh`: updated within the last 7 days
and confidence above 0.3. -/
def is_weights_fresh (now : ℤ) (w : LearningWeights) : Bool :=
  decide (now - w.last_updated < 7) && decide ((0.3 : ℚ) < w.confidence_score)

/-- The recruiter filter built in `_learn_weights_from_interactions`:
Python adds the `recruiter_id` key only when the argument is truthy. -/
def recruiter_query (recruiter_id : Option String) (i : RecruiterInteraction) : Bool :=
  match recruiter_id with
  | none => true
  | some r => if r = "" then true else decide (i.recruiter_id = r)

/-- The coefficient post-processing of `_learn_weights_from_interactions`:
`raw_weights = np.abs(coef)`, normalize to sum to 1 when the sum is
positive, otherwise fall back to the default triple. -/
def normalize_coefs (coef : ℚ × ℚ × ℚ) : ℚ × ℚ × ℚ :=
  let raw := (|coef.1|, |coef.2.1|, |coef.2.2|)
  let weight_sum := raw.1 + raw.2.1 + raw.2.2
  if weight_sum > 0 then
    (raw.1 / weight_sum, raw.2.1 / weight_sum, raw.2.2 / weight_sum)
  else ((0.4 : ℚ), (0.4 : ℚ), (0.2 : ℚ))

/-- `LearningToRankEngine._learn_weights_from_interactions`.  The
scikit-learn scaler+ridge pipeline is external to the repository, so the
fitted coefficient triple (`model.coef_` after `fit` on the standardized
features) and the regressor's training-sample score (`model.score`) enter
the model as the parameters `fit` and `r2`; every theorem below holds for
all values of these parameters.  `now` is the current day; the source pulls
at most 1000 interactions from the last 30 days. -/
def learn_weights_from_interactions
    (fit : List (ℚ × ℚ × ℚ) → List ℚ → ℚ × ℚ × ℚ)
    (r2 : List (ℚ × ℚ × ℚ) → List ℚ → ℚ)
    (now : ℤ) (db : LearnDB)
    (job_category recruiter_id : Option String) : LearningWeights :=
  let cutoff := now - 30
  let interactions := (db.recruiter_interactions.filter (fun i =>
    decide (cutoff ≤ i.timestamp) && recruiter_query recruiter_id i)).take 1000
  if interactions.length < min_interactions_threshold then default_weights
  else
    let usable := interactions.filter (fun i =>
      i.semantic_score.isSome && i.skill_overlap_score.isSome &&
        i.experience_match_score.isSome)
    let features := usable.map (fun i =>
      (i.semantic_score.getD 0, i.skill_overlap_score.getD 0,
        i.experience_match_score.getD 0))
    let rewards := usable.map (fun i => i.feedback_value)
    if features.length < 10 then default_weights
    else
      let normalized := normalize_coefs (fit features rewards)
      let confidence := max 0 (r2 features rewards)
      { semantic_weight := normalized.1,
        skill_weight := normalized.2.1,
        experience_weight := normalized.2.2,
        confidence_score := confidence,
        interaction_count := interactions.length,
        job_category := job_category,
        performance_metrics :=
          [("r2_score", confidence),
           ("training_samples", (features.length : ℚ)),
           ("avg_reward",
             if rewards.length = 0 then 0 else rewards.sum / rewards.length)],
        last_updated := now }

/-- `LearningToRankEngine._save_weights`: re-tag the record with the
requested category and append it to the `learning_weights` collection
(append-only history). -/
def save_weights (db : LearnDB) (w : LearningWeights)
    (job_category : Option String) : LearnDB :=
  { db with learning_weights :=
      db.learning_weights ++ [{ w with job_category := job_category }] }

/-- `LearningToRankEngine.get_optimal_weights`: default weights below the
interaction threshold; a fresh, confident stored record when one matches the
category scope; otherwise learn new weights and persist them.  Returns the
weights together with the (possibly extended) database. -/
def get_optimal_weights
    (fit : List (ℚ × ℚ × ℚ) → List ℚ → ℚ × ℚ × ℚ)
    (r2 : List (ℚ × ℚ × ℚ) → List ℚ → ℚ)
    (now : ℤ) (db : LearnDB)
    (job_category recruiter_id : Option String) : LearningWeights × LearnDB :=
  let existing_weights := find_one_latest db.learning_weights (category_query job_category)
  let interaction_count := db.recruiter_interactions.length
  if interaction_count < min_interactions_threshold then (default_weights, db)
  else
    match existing_weights with
    | some w =>
      if is_weights_fresh now w then (w, db)
      else
        let learned := learn_weights_from_interactions fit r2 now db job_category recruiter_id
        (learned, save_weights db learned job_category)
    | none =>
      let learned := learn_weights_from_interactions fit r2 now db job_category recruiter_id
      (learned, save_weights db learned job_category)

/-- The sum of the three weights of a `LearningWeights` record. -/
def wsum (w : LearningWeights) : ℚ :=
  w.semantic_weight + w.skill_weight + w.experience_weight

/-- A minimal concrete recorded interaction (a click with no position). -/
def sample_click : RecruiterInteraction :=
  { recruiter_id := "r1", candidate_id := "c1", job_id := "j1",
    interaction_type := .click }

/-- A concrete hire interaction at search position 1. -/
def sample_hire_pos1 : RecruiterInteraction :=
  { recruiter_id := "r1", candidate_id := "c1", job_id := "j1",
    interaction_type := .hire, search_position := some 1 }

/-- A trivial concrete stand-in for the external regression fit. -/
def zero_fit : List (ℚ × ℚ × ℚ) → List ℚ → ℚ × ℚ × ℚ := fun _ _ => (0, 0, 0)

/-- A trivial concrete stand-in for the external regression score. -/
def zero_r2 : List (ℚ × ℚ × ℚ) → List ℚ → ℚ := fun _ _ => 0


/-! ## VectorIndex (backend/vector_store.py)

`FAISSService`.  The FAISS index object is modelled as its dimensionality
plus the ordered list of stored (already normalized) rows; the binary index
file and JSON metadata file become an explicit `FaissFiles` state.  FAISS
itself is external: its `IndexFlatIP.search` contract (top-k inner-product
scores in descending order) is modelled directly, and the square root inside
`np.linalg.norm` enters as a parameter `sqrtQ` since ℚ has no square root —
every theorem holds for all values of `sqrtQ`.
-/

/-- The in-memory FAISS index: fixed dimensionality `d` plus stored rows. -/
structure FaissIndex where
  d : ℕ
  vectors : List (List ℚ)
deriving DecidableEq

/-- `index.ntotal`: the number of stored vectors. -/
def FaissIndex.ntotal (idx : FaissIndex) : ℕ := idx.vectors.length

/-- `FAISSService` state: optional index, optional dimensionality, and the
id→metadata dictionary (keys are stringified integer ids, values are small
JSON objects modelled as string-to-string maps). -/
structure FAISSService where
  index : Option FaissIndex
  dimensions : Option ℕ
  metadata : List (String × List (String × String))
deriving DecidableEq

/-- The on-disk state: the binary index file and the JSON metadata file
(`none` = the file does not exist). -/
structure FaissFiles where
  index_file : Option FaissIndex
  metadata_file : Option (List (String × List (String × String)))
deriving DecidableEq

/-- Sum of squares of a row (the square of its L2 norm). -/
def sumSq (v : List ℚ) : ℚ := (v.map (fun x => x * x)).sum

/-- One row of `FAISSService._normalize`: divide by the L2 norm, with a zero
norm replaced by 1 (`np.where(norms == 0, 1.0, norms)`).  `sqrtQ` stands for
the float square root inside `np.linalg.norm`. -/
def normalize_row (sqrtQ : ℚ → ℚ) (x : List ℚ) : List ℚ :=
  let n := sqrtQ (sumSq x)
  let n := if n = 0 then 1 else n
  x.map (fun a => a / n)

/-- Inner product of two rows. -/
def dotQ (a b : List ℚ) : ℚ := (List.zipWith (fun x y => x * y) a b).sum

/-- The FAISS `IndexFlatIP.search` contract for one query row: score every
stored row by inner product and return the top `k` (score, row-id) pairs in
descending score order.  (FAISS pads missing rows with id −1, which the
wrapper skips; the model simply returns fewer pairs.) -/
def faiss_topk (vectors : List (List ℚ)) (q : List ℚ) (k : ℕ) : List (ℚ × ℕ) :=
  ((vectors.enum.map (fun p => (dotQ q p.2, p.1))).mergeSort
    (fun a b => decide (b.1 ≤ a.1))).take k

/-- One element of the list returned by `FAISSService.search`. -/
structure SearchHit where
  id : ℕ
  score : ℚ
  metadata : List (String × String)
deriving DecidableEq

/-- `self.metadata.get(str(idx), \x7b\x7d)`: dictionary lookup with empty-object
default. -/
def meta_get (m : List (String × List (String × String))) (key : String) :
    List (String × String) :=
  match m.find? (fun p => decide (p.1 = key)) with
  | some p => p.2
  | none => []

/-- `FAISSService.search`: empty result on an uninitialized or empty index;
otherwise normalize the query, take the top-k inner-product hits, drop
scores below the threshold, and attach metadata. -/
def FAISSService.search (sqrtQ : ℚ → ℚ) (s : FAISSService) (query : List ℚ)
    (k : ℕ) (threshold : ℚ) : List SearchHit :=
  match s.index with
  | none => []
  | some idx =>
    if idx.ntotal = 0 then []
    else
      let q := normalize_row sqrtQ query
      let results := faiss_topk idx.vectors q k
      (results.filter (fun r => !decide (r.1 < threshold))).map
        (fun r => { id := r.2, score := r.1,
                    metadata := meta_get s.metadata (toString r.2) })

/-- `FAISSService.save`: when an index exists, overwrite both files with the
index and the metadata dictionary; otherwise do nothing. -/
def FAISSService.save (s : FAISSService) (fs : FaissFiles) : FaissFiles :=
  match s.index with
  | some idx => { index_file := some idx, metadata_file := some s.metadata }
  | none => fs

/-- `FAISSService.initialize` on a fresh instance: if the index file exists,
load it and set `dimensions` from it, then load the metadata file if it
exists; otherwise start empty (created lazily on first add). -/
def FAISSService.initialize_fresh (fs : FaissFiles) : FAISSService :=
  match fs.index_file with
  | some idx =>
    { index := some idx,
      dimensions := some idx.d,
      metadata :=
        match fs.metadata_file with
        | some m => m
        | none => [] }
  | none => { index := none, dimensions := none, metadata := [] }

/-- A concrete populated service state used to instantiate theorems. -/
def sample_service : FAISSService :=
  { index := some { d := 2, vectors := [[1, 0]] },
    dimensions := some 2,
    metadata := [("0", [("type", "candidate")])] }

/-! ## TaskOrchestrator (backend/task_service.py)

`TaskService`.  The `task_status` Mongo collection is a list of `TaskInfo`
records; the Celery runtime is external and enters as a function from task
id to an optional `AsyncResult` state (`none` models the caught exception
when the runtime cannot be reached).  Wall-clock times are ℚ seconds.
The pydantic model classes `TaskInfo`, `TaskInfoResponse`, `TaskStatus` and
`TaskType` are imported by the backend from `models` but their definitions
are not part of the provided scoring core, so they are modelled from the
spec below.
-/

/-- Modelled from the spec: `TaskStatus` — pending → started → progress →
terminal (success | failure | revoked), plus retry; its definition is
missing from the provided `models.py`. -/
inductive TaskStatus where
  | pending
  | started
  | progress
  | success
  | failure
  | revoked
  | retry
deriving DecidableEq

/-- Modelled from the spec: `TaskType` — the concrete task kinds built on
the orchestrator; its definition is missing from the provided `models.py`. -/
inductive TaskType where
  | resume_processing
  | candidate_search
  | learning_retrain
  | embedding_generation
deriving DecidableEq

/-- Modelled from the spec: `TaskInfo` — the durable task record (identity,
kind, status, 0–100 progress, optional result/error, timestamps, owner,
metadata map); its definition is missing from the provided `models.py`. -/
structure TaskInfo where
  task_id : String
  task_type : TaskType
  status : TaskStatus
  progress : ℤ := 0
  result : Option String := none
  error : Option String := none
  created_at : ℚ := 0
  started_at : Option ℚ := none
  completed_at : Option ℚ := none
  created_by : String
  metadata : List (String × String) := []
deriving DecidableEq

/-- Modelled from the spec: `TaskInfoResponse` — the status-poll payload:
the record's fields plus the computed `estimated_completion`. -/
structure TaskInfoResponse where
  task_id : String
  task_type : TaskType
  status : TaskStatus
  progress : ℤ
  result : Option String
  error : Option String
  created_at : ℚ
  started_at : Option ℚ
  completed_at : Option ℚ
  estimated_completion : Option ℚ
  metadata : List (String × String)
deriving DecidableEq

/-- The Celery `AsyncResult` state for a task, carrying the result payload
on success and the exception text on failure. -/
inductive CeleryState where
  | pending
  | started
  | retry
  | revoked
  | success (result : String)
  | failure (info : String)
deriving DecidableEq

/-- `status in [TaskStatus.SUCCESS, TaskStatus.FAILURE, TaskStatus.REVOKED]`. -/
def is_terminal (s : TaskStatus) : Bool :=
  match s with
  | .success => true
  | .failure => true
  | .revoked => true
  | _ => false

/-- `celery_result.state in ["SUCCESS", "FAILURE", "REVOKED"]`. -/
def celery_terminal (c : CeleryState) : Bool :=
  match c with
  | .success _ => true
  | .failure _ => true
  | .revoked => true
  | _ => false

/-- The `status_map` of `_sync_celery_status` (default `PENDING`). -/
def celery_status_map (c : CeleryState) : TaskStatus :=
  match c with
  | .success _ => .success
  | .failure _ => .failure
  | .revoked => .revoked
  | .retry => .retry
  | _ => .pending

/-- Mongo `update_one`: apply `f` to the first record matching `p`. -/
def update_first (l : List TaskInfo) (p : TaskInfo → Bool)
    (f : TaskInfo → TaskInfo) : List TaskInfo :=
  match l with
  | [] => []
  | t :: ts => if p t then f t :: ts else t :: update_first ts p f

/-- `TaskService._sync_celery_status`: write the mapped terminal status and
completion time through to the record, plus result/progress on success and
the error text on failure. -/
def sync_celery_status (db : List TaskInfo) (now : ℚ) (task_id : String)
    (c : CeleryState) : List TaskInfo :=
  update_first db (fun t => decide (t.task_id = task_id)) (fun t =>
    let t := { t with status := celery_status_map c, completed_at := some now }
    match c with
    | .success r => { t with result := some r, progress := 100 }
    | .failure info => { t with error := some info }
    | _ => t)

/-- The estimated-completion computation shared by `get_task_status` and
`get_user_tasks`: linear extrapolation from elapsed time once status is
`progress` and progress exceeds 10. -/
def estimate_completion (now : ℚ) (t : TaskInfo) : Option ℚ :=
  if t.status = .progress ∧ t.progress > 0 then
    match t.started_at with
    | some s =>
      let elapsed := now - s
      if t.progress > 10 then
        let estimated_total := elapsed / (t.progress : ℚ) * 100
        some (now + (estimated_total - elapsed))
      else none
    | none => none
  else none

/-- Build a `TaskInfoResponse` from a record (the tail of `get_task_status`
and the loop body of `get_user_tasks`). -/
def to_response (now : ℚ) (t : TaskInfo) : TaskInfoResponse :=
  { task_id := t.task_id, task_type := t.task_type, status := t.status,
    progress := t.progress, result := t.result, error := t.error,
    created_at := t.created_at, started_at := t.started_at,
    completed_at := t.completed_at,
    estimated_completion := estimate_completion now t,
    metadata := t.metadata }

/-- `TaskService.get_task_status`: `None` when no record exists; otherwise
reconcile a terminal Celery state into storage when the stored status is not
yet terminal, re-read the record, and return the response (with the possibly
updated collection). -/
def get_task_status (db : List TaskInfo) (celery : String → Option CeleryState)
    (now : ℚ) (task_id : String) : Option TaskInfoResponse × List TaskInfo :=
  match db.find? (fun t => decide (t.task_id = task_id)) with
  | none => (none, db)
  | some task_info =>
    let refreshed : TaskInfo × List TaskInfo :=
      match celery task_id with
      | some c =>
        if celery_terminal c && !is_terminal task_info.status then
          let db2 := sync_celery_status db now task_id c
          ((match db2.find? (fun t => decide (t.task_id = task_id)) with
            | some t2 => t2
            | none => task_info), db2)
        else (task_info, db)
      | none => (task_info, db)
    (some (to_response now refreshed.1), refreshed.2)

/-- `TaskService.cancel_task`: `False` when no record matches the id and
owner or when the record is already terminal; otherwise revoke the Celery
task (external) and mark the record revoked. -/
def cancel_task (db : List TaskInfo) (now : ℚ) (task_id user_id : String) :
    Bool × List TaskInfo :=
  match db.find? (fun t =>
      decide (t.task_id = task_id) && decide (t.created_by = user_id)) with
  | none => (false, db)
  | some task_info =>
    if is_terminal task_info.status then (false, db)
    else
      (true, update_first db (fun t => decide (t.task_id = task_id)) (fun t =>
        { t with status := .revoked, completed_at := some now,
                 error := some "Task cancelled by user" }))

/-- A concrete already-succeeded task record. -/
def sample_task : TaskInfo :=
  { task_id := "t1", task_type := .candidate_search, status := .success,
    created_by := "u1" }

/-! ## Theorems -/

/-- On a non-empty required-skill list the overlap is the ratio of the two
case-normalized set cardinalities (the `else 0.0` guard is dead then). -/
lemma skill_overlap_cons (cs : List String) (s : String) (js : List String) :
    calculate_skill_overlap cs (s :: js) =
      (((cs.map lowerStr).toFinset ∩ ((s :: js).map lowerStr).toFinset).card : ℚ) /
        (((s :: js).map lowerStr).toFinset.card : ℚ) := by
  rw [calculate_skill_overlap]
  have hne : ((s :: js).map lowerStr).toFinset ≠ ∅ := by
    simp [List.toFinset_eq_empty_iff]
  simp [hne]

/-- C7: if the job's required-skill list is empty the overlap is 1.0;
otherwise it is `|candidate ∩ required| / |required|` over the lower-cased
skill sets, whose denominator is then never zero. -/
theorem C7_skill_overlap (cs js : List String) :
    (js = [] → calculate_skill_overlap cs js = 1) ∧
    (js ≠ [] →
      calculate_skill_overlap cs js =
        (((cs.map lowerStr).toFinset ∩ (js.map lowerStr).toFinset).card : ℚ) /
          ((js.map lowerStr).toFinset.card : ℚ) ∧
      (js.map lowerStr).toFinset.card ≠ 0) := by
  constructor
  · intro h
    simp [calculate_skill_overlap, h]
  · intro h
    obtain ⟨s, t, rfl⟩ : ∃ s t, js = s :: t := by
      cases js with
      | nil => exact absurd rfl h
      | cons s t => exact ⟨s, t, rfl⟩
    refine ⟨skill_overlap_cons cs s t, ?_⟩
    simp [Finset.card_eq_zero, List.toFinset_eq_empty_iff]

/-- C7 witness: the theorem applied at candidate skills {python} and
required skills {python, aws}. -/
theorem C7_skill_overlap_witness :
    calculate_skill_overlap ["python"] ["python", "aws"] =
      (((["python"].map lowerStr).toFinset ∩
          ((["python", "aws"] : List String).map lowerStr).toFinset).card : ℚ) /
        (((["python", "aws"] : List String).map lowerStr).toFinset.card : ℚ) :=
  ((C7_skill_overlap ["python"] ["python", "aws"]).2 (by decide)).1

/-- C8: required years ≤ 0 gives 1.0; candidate ≥ required gives 1.0;
otherwise the score is candidate_years / required_years. -/
theorem C8_experience_match (c r : ℤ) :
    (r ≤ 0 → calculate_experience_match c r = 1) ∧
    (c ≥ r → calculate_experience_match c r = 1) ∧
    (0 < r → c < r → calculate_experience_match c r = (c : ℚ) / (r : ℚ)) := by
  refine ⟨fun h => ?_, fun h => ?_, fun h1 h2 => ?_⟩
  · simp [calculate_experience_match, h]
  · rw [calculate_experience_match]
    split_ifs <;> rfl
  · rw [calculate_experience_match]
    split_ifs with ha hb
    · exact absurd ha (not_le.mpr h1)
    · exact absurd hb (not_le.mpr h2)
    · rfl

/-- C8 witness: the theorem applied at 3 candidate years against 5 required. -/
theorem C8_experience_match_witness :
    calculate_experience_match 3 5 = (3 : ℚ) / 5 := by
  have h := (C8_experience_match 3 5).2.2 (by decide) (by decide)
  rw [h]
  norm_num

/-- C9: the score breakdown's skill lists are case-sensitive while the
overlap score lower-cases both sides: for candidate skills {Python} and
required skills {python}, the overlap is full (1.0) yet `matched_skills`
is empty and "python" is reported missing. -/
theorem C9_case_sensitivity :
    calculate_skill_overlap ["Python"] ["python"] = 1 ∧
    matched_skills ["Python"] ["python"] = ∅ ∧
    "python" ∈ missing_skills ["Python"] ["python"] := by
  refine ⟨?_, by decide, by decide⟩
  rw [skill_overlap_cons]
  rw [show (((["Python"].map lowerStr).toFinset ∩
      ((["python"] : List String).map lowerStr).toFinset).card) = 1 from by decide]
  rw [show (((["python"] : List String).map lowerStr).toFinset.card) = 1 from by decide]
  norm_num

/-- The default weight triple sums to exactly 1. -/
lemma wsum_default : wsum default_weights = 1 := by
  norm_num [wsum, default_weights]

/-- `normalize_coefs` always returns a triple summing to exactly 1. -/
lemma normalize_coefs_sum (c : ℚ × ℚ × ℚ) :
    (normalize_coefs c).1 + (normalize_coefs c).2.1 + (normalize_coefs c).2.2 = 1 := by
  rw [normalize_coefs]
  split_ifs with h
  · rw [div_add_div_same, div_add_div_same, div_eq_one_iff_eq (ne_of_gt h)]
  · norm_num

/-- Every outcome of `_learn_weights_from_interactions` has weights summing
to exactly 1, for any behavior of the external regressor. -/
lemma wsum_learn (fit : List (ℚ × ℚ × ℚ) → List ℚ → ℚ × ℚ × ℚ)
    (r2 : List (ℚ × ℚ × ℚ) → List ℚ → ℚ) (now : ℤ) (db : LearnDB)
    (jc rid : Option String) :
    wsum (learn_weights_from_interactions fit r2 now db jc rid) = 1 := by
  simp only [learn_weights_from_interactions]
  split_ifs
  · exact wsum_default
  · exact wsum_default
  all_goals
    simp only [wsum]
    exact normalize_coefs_sum _

/-- A record returned by `find_one_latest` is a member of the collection. -/
lemma find_one_latest_mem {l : List LearningWeights} {q : LearningWeights → Bool}
    {w : LearningWeights} (h : find_one_latest l q = some w) : w ∈ l := by
  rw [find_one_latest] at h
  have hm := List.mem_of_mem_head? h
  rw [List.mem_mergeSort] at hm
  exact (List.mem_filter.mp hm).1

/-- C3: every weight triple returned by `get_optimal_weights` — default,
cached (assuming the stored history was produced by the optimizer, i.e.
sums to 1), or freshly learned — sums to 1 within tolerance 0.01. -/
theorem C3_weights_sum (fit : List (ℚ × ℚ × ℚ) → List ℚ → ℚ × ℚ × ℚ)
    (r2 : List (ℚ × ℚ × ℚ) → List ℚ → ℚ) (now : ℤ) (db : LearnDB)
    (jc rid : Option String)
    (h : ∀ w ∈ db.learning_weights, wsum w = 1) :
    |wsum (get_optimal_weights fit r2 now db jc rid).1 - 1| < 1/100 := by
  have hs : wsum (get_optimal_weights fit r2 now db jc rid).1 = 1 := by
    rw [get_optimal_weights]
    rcases lt_or_ge db.recruiter_interactions.length min_interactions_threshold with hc | hc
    · rw [if_pos hc]
      exact wsum_default
    · rw [if_neg (not_lt.mpr hc)]
      rcases hf : find_one_latest db.learning_weights (category_query jc) with _ | w
      · simp only
        exact wsum_learn fit r2 now db jc rid
      · simp only
        split_ifs
        · exact h w (find_one_latest_mem hf)
        · exact wsum_learn fit r2 now db jc rid
  rw [hs]
  norm_num

/-- C3 witness: the theorem applied to the empty database (where the stored
history trivially satisfies the invariant) with a concrete regressor. -/
theorem C3_weights_sum_witness :
    |wsum (get_optimal_weights zero_fit zero_r2 0 ⟨[], []⟩ none none).1 - 1| < 1/100 :=
  C3_weights_sum zero_fit zero_r2 0 ⟨[], []⟩ none none (by simp)

/-- C1 counterexample: with exactly one recorded interaction (1 < 50),
`get_optimal_weights` returns a record whose `interaction_count` is 0, not
the true total of 1 — the claim's second conjunct fails. -/
theorem C1_counterexample :
    (LearnDB.mk [sample_click] []).recruiter_interactions.length < 50 ∧
    (get_optimal_weights zero_fit zero_r2 0
        (LearnDB.mk [sample_click] []) none none).1.interaction_count ≠
      (LearnDB.mk [sample_click] []).recruiter_interactions.length := by
  constructor
  · simp
  · have hd : (get_optimal_weights zero_fit zero_r2 0
        (LearnDB.mk [sample_click] []) none none).1 = default_weights := by
      rw [get_optimal_weights]
      rw [if_pos (by simp [min_interactions_threshold])]
    rw [hd]
    simp [default_weights]

/-- C1 (amended): whenever the total interaction count is strictly below 50,
`get_optimal_weights` returns exactly the default triple
{semantic 0.4, skill 0.4, experience 0.2}; its `interaction_count` field is
the model default 0 (the true count is not passed through), so it equals the
true count only when that count is 0. -/
theorem C1_default_weights (fit : List (ℚ × ℚ × ℚ) → List ℚ → ℚ × ℚ × ℚ)
    (r2 : List (ℚ × ℚ × ℚ) → List ℚ → ℚ) (now : ℤ) (db : LearnDB)
    (jc rid : Option String)
    (h : db.recruiter_interactions.length < 50) :
    (get_optimal_weights fit r2 now db jc rid).1 = default_weights ∧
    default_weights.semantic_weight = 0.4 ∧
    default_weights.skill_weight = 0.4 ∧
    default_weights.experience_weight = 0.2 ∧
    default_weights.interaction_count = 0 := by
  refine ⟨?_, rfl, rfl, rfl, rfl⟩
  rw [get_optimal_weights]
  rw [if_pos (show db.recruiter_interactions.length < min_interactions_threshold from h)]

/-- C1 witness: the amended theorem applied to the one-interaction database. -/
theorem C1_default_weights_witness :
    (get_optimal_weights zero_fit zero_r2 0
        (LearnDB.mk [sample_click] []) none none).1 = default_weights :=
  (C1_default_weights zero_fit zero_r2 0 (LearnDB.mk [sample_click] []) none none
    (by simp)).1

/-- C2 counterexample: a hire interaction at search position 1 is stored
with reward 1.18 = 1.0 + (10 − 1)/10 · 0.2, not 1.2. -/
theorem C2_counterexample :
    ((record_interaction ⟨[], []⟩ sample_hire_pos1).2.recruiter_interactions.map
        (fun j => j.feedback_value)) = [1.18] ∧ (1.18 : ℚ) ≠ 1.2 := by
  constructor
  · simp only [record_interaction, sample_hire_pos1, reward_values]
    norm_num
  · norm_num

/-- C2 (amended): `record_interaction` stores the interaction with reward
equal to the kind's base value plus `max(0, (10 − position)/10 · 0.2)` when
a search position was recorded (and just the base value otherwise); for a
hire at position 1 the stored reward is 1.18, the base 1.0 plus a position
bonus of 0.18. -/
theorem C2_reward (db : LearnDB) (i : RecruiterInteraction) :
    (record_interaction db i).1 = true ∧
    ∃ j, (record_interaction db i).2.recruiter_interactions =
        db.recruiter_interactions ++ [j] ∧
      j.feedback_value = reward_values i.interaction_type +
        (match i.search_position with
          | some p => max 0 ((10 - (p : ℚ)) / 10 * 0.2)
          | none => 0) ∧
      (i.interaction_type = .hire → i.search_position = some 1 →
        j.feedback_value = 1.18) := by
  refine ⟨rfl, ⟨_, rfl, ?_, ?_⟩⟩
  · cases hp : i.search_position with
    | none => simp [record_interaction, hp]
    | some p => simp [record_interaction, hp]
  · intro ht hp
    simp only [record_interaction, hp, ht, reward_values]
    norm_num

/-- C2 witness: the amended theorem applied to the hire-at-position-1
interaction on the empty database, with the inner implications discharged. -/
theorem C2_reward_witness :
    ∃ j, (record_interaction ⟨[], []⟩ sample_hire_pos1).2.recruiter_interactions =
        [] ++ [j] ∧ j.feedback_value = 1.18 := by
  obtain ⟨-, j, hj, -, hh⟩ := C2_reward ⟨[], []⟩ sample_hire_pos1
  exact ⟨j, hj, hh rfl rfl⟩

/-- C4: `cancel_task` returns `False` and leaves the collection unchanged
whenever every record matching the task id and owner is already terminal —
covering a missing task, a task owned by someone else, and a task already
in `success`, `failure` or `revoked`. -/
theorem C4_cancel_task (db : List TaskInfo) (now : ℚ) (tid uid : String)
    (h : ∀ t ∈ db, t.task_id = tid → t.created_by = uid →
      is_terminal t.status = true) :
    cancel_task db now tid uid = (false, db) := by
  rw [cancel_task]
  split
  · rfl
  · next t hf =>
    have hm := List.mem_of_find?_eq_some hf
    have hp := List.find?_some hf
    simp only [Bool.and_eq_true, decide_eq_true_eq] at hp
    rw [if_pos (h t hm hp.1 hp.2)]

/-- C4 witness: cancelling an already-succeeded task owned by the caller
returns `False` with the record untouched. -/
theorem C4_cancel_task_witness :
    cancel_task [sample_task] 0 "t1" "u1" = (false, [sample_task]) :=
  C4_cancel_task [sample_task] 0 "t1" "u1" (by decide)

/-- C10: when no stored record has the requested task id,
`get_task_status` returns `None` and leaves the collection unchanged. -/
theorem C10_get_task_status (db : List TaskInfo)
    (celery : String → Option CeleryState) (now : ℚ) (tid : String)
    (h : ∀ t ∈ db, t.task_id ≠ tid) :
    get_task_status db celery now tid = (none, db) := by
  rw [get_task_status]
  have hf : db.find? (fun t => decide (t.task_id = tid)) = none :=
    List.find?_eq_none.mpr (by simpa using h)
  rw [hf]

/-- C10 witness: the theorem applied to the empty collection. -/
theorem C10_get_task_status_witness :
    get_task_status [] (fun _ => none) 0 "missing" = (none, []) :=
  C10_get_task_status [] (fun _ => none) 0 "missing" (by simp)

/-- C5: `search` returns at most `k` hits, every hit scores at least the
threshold, hits are in descending score order, and an uninitialized or
empty index yields the empty list — for any query, `k`, threshold and any
behavior of the square root. -/
theorem C5_search (sqrtQ : ℚ → ℚ) (s : FAISSService) (query : List ℚ)
    (k : ℕ) (threshold : ℚ) :
    (FAISSService.search sqrtQ s query k threshold).length ≤ k ∧
    (∀ hit ∈ FAISSService.search sqrtQ s query k threshold,
      threshold ≤ hit.score) ∧
    List.Pairwise (fun a b => b.score ≤ a.score)
      (FAISSService.search sqrtQ s query k threshold) ∧
    ((s.index = none ∨ ∀ j, s.index = some j → j.ntotal = 0) →
      FAISSService.search sqrtQ s query k threshold = []) := by
  rcases hidx : s.index with _ | idx
  · simp [FAISSService.search, hidx]
  · by_cases hz : idx.ntotal = 0
    · simp [FAISSService.search, hidx, hz]
    · have hsearch : FAISSService.search sqrtQ s query k threshold =
          ((faiss_topk idx.vectors (normalize_row sqrtQ query) k).filter
              (fun r => !decide (r.1 < threshold))).map
            (fun r => { id := r.2, score := r.1,
                        metadata := meta_get s.metadata (toString r.2) }) := by
        rw [FAISSService.search, hidx]
        simp only [if_neg hz]
      rw [hsearch]
      have hlen : (faiss_topk idx.vectors (normalize_row sqrtQ query) k).length ≤ k := by
        rw [faiss_topk]
        simp [List.length_take]
      have hsorted : List.Pairwise (fun a b : ℚ × ℕ => b.1 ≤ a.1)
          (faiss_topk idx.vectors (normalize_row sqrtQ query) k) := by
        rw [faiss_topk]
        refine List.Pairwise.sublist (List.take_sublist _ _) ?_
        have htrans : ∀ a b c : ℚ × ℕ, decide (b.1 ≤ a.1) = true →
            decide (c.1 ≤ b.1) = true → decide (c.1 ≤ a.1) = true := by
          intro a b c hab hbc
          simp only [decide_eq_true_eq] at *
          exact le_trans hbc hab
        have htotal : ∀ a b : ℚ × ℕ,
            (decide (b.1 ≤ a.1) || decide (a.1 ≤ b.1)) = true := by
          intro a b
          simpa using le_total b.1 a.1
        exact (@List.sorted_mergeSort (ℚ × ℕ)
          (fun a b => decide (b.1 ≤ a.1)) htrans htotal
          (idx.vectors.enum.map (fun p => (dotQ (normalize_row sqrtQ query) p.2, p.1)))).imp
          (fun h => of_decide_eq_true h)
      refine ⟨?_, ?_, ?_, ?_⟩
      · rw [List.length_map]
        exact le_trans (List.length_filter_le _ _) hlen
      · intro hit hm
        rw [List.mem_map] at hm
        obtain ⟨r, hr, rfl⟩ := hm
        rw [List.mem_filter] at hr
        have hge : ¬ r.1 < threshold := by simpa using hr.2
        exact not_lt.mp hge
      · exact List.Pairwise.map _ (fun a b hab => hab) (hsorted.filter _)
      · intro hyp
        rcases hyp with hnone | hall
        · cases hnone
        · exact absurd (hall idx rfl) hz

/-- C5 witness: a freshly constructed, never-populated index returns `[]`
(the theorem's empty-index conjunct applied at a concrete state and k). -/
theorem C5_search_witness :
    FAISSService.search (fun _ => 0) ⟨none, none, []⟩ [1, 0] 5 0 = [] :=
  (C5_search (fun _ => 0) ⟨none, none, []⟩ [1, 0] 5 0).2.2.2 (Or.inl rfl)

/-- C6: `save()` followed by `initialize()` on a fresh instance preserves
the vector count, the dimensionality and the whole id→metadata mapping of
any populated, dimension-consistent service state. -/
theorem C6_round_trip (s : FAISSService) (fs : FaissFiles) (idx : FaissIndex)
    (hidx : s.index = some idx) (hdim : s.dimensions = some idx.d) :
    ∃ idx2,
      (FAISSService.initialize_fresh (FAISSService.save s fs)).index = some idx2 ∧
      idx2.ntotal = idx.ntotal ∧
      (FAISSService.initialize_fresh (FAISSService.save s fs)).dimensions = s.dimensions ∧
      (FAISSService.initialize_fresh (FAISSService.save s fs)).metadata = s.metadata := by
  refine ⟨idx, ?_, rfl, ?_, ?_⟩ <;>
    simp [FAISSService.save, FAISSService.initialize_fresh, hidx, hdim]

/-- C6 witness: the round trip applied to a one-vector service state. -/
theorem C6_round_trip_witness :
    ∃ idx2,
      (FAISSService.initialize_fresh (FAISSService.save sample_service
        ⟨none, none⟩)).index = some idx2 ∧
      idx2.ntotal = (FaissIndex.mk 2 [[1, 0]]).ntotal ∧
      (FAISSService.initialize_fresh (FAISSService.save sample_service
        ⟨none, none⟩)).dimensions = sample_service.dimensions ∧
      (FAISSService.initialize_fresh (FAISSService.save sample_service
        ⟨none, none⟩)).metadata = sample_service.metadata :=
  C6_round_trip sample_service ⟨none, none⟩ ⟨2, [[1, 0]]⟩ rfl rfl
